import Mathlib

/-!
Verification development for the hugo-hoster reconciler
(`controllers/metrics.go`, `api/v1alpha1/*_types.go`, `pkg/client/*.go`).

The Go controller is shallowly embedded: the Kubernetes client is modelled
as explicit state passing over a `ClusterState` holding the stored objects,
injectable per-key read/write faults, and a log of the writes that were
issued.  Every upsert function and the `Reconcile` entry point is translated
from the source; desired child objects are plain records carrying exactly the
fields the source sets.
-/

set_option maxHeartbeats 1000000

namespace HugoHoster

/-- Namespaced object key (`types.NamespacedName`): a name plus a namespace. -/
structure ObjKey where
  name : String
  ns : String
  deriving DecidableEq, Repr

/-- Go `error` values as the reconciler observes them: a Kubernetes
not-found status, any other error (identified by a message), or an error
wrapped with context by `github.com/pkg/errors.Wrap`. -/
inductive GoError where
  | notFound
  | other (msg : String)
  | wrapped (msg : String) (cause : GoError)
  deriving DecidableEq, Repr

/-- Model of `k8serrors.IsNotFound`: true exactly on a raw not-found error. -/
def isNotFound : GoError → Bool
  | .notFound => true
  | _ => false

/-- Model of `github.com/pkg/errors.Wrap`: wrapping a nil error yields nil,
otherwise the error is annotated with the message. -/
def errorsWrap (err : Option GoError) (msg : String) : Option GoError :=
  match err with
  | none => none
  | some e => some (.wrapped msg e)

/-- Spec of a HugoPage (`api/v1alpha1/hugopage_types.go`, `HugoPageSpec`). -/
structure HugoPageSpec where
  repository : String
  branch : String
  url : String
  buildType : String
  cronInterval : String
  deriving DecidableEq, Repr

/-- A HugoPage ("Site"): object identity plus its spec. -/
structure HugoPage where
  name : String
  ns : String
  spec : HugoPageSpec
  deriving DecidableEq, Repr

/-- S3 configuration block of a Setting (`setting_types.go`, `S3Config`). -/
structure S3Config where
  endpoint : String
  bucketName : String
  secretName : String
  accessKeyIDRef : String
  accessKeyRef : String
  deriving DecidableEq, Repr

/-- TLS block of a Setting (`setting_types.go`, `TLSSpec`).  The Go
`map[string]string` of annotations is modelled as an association list. -/
structure TLSSpec where
  enable : Bool
  annotations : List (String × String)
  deriving DecidableEq, Repr

/-- Spec of a Setting (`setting_types.go`, `SettingSpec`). -/
structure SettingSpec where
  tls : TLSSpec
  ingressClassName : String
  s3Config : S3Config
  proxyURL : String
  nginxProxyReplica : Int
  deriving DecidableEq, Repr

/-- A Setting ("SiteConfig"). -/
structure Setting where
  spec : SettingSpec
  deriving DecidableEq, Repr

/-- An environment variable value: either a literal value or a
`SecretKeyRef` naming a secret and a key inside it. -/
inductive EnvVarSource where
  | value (v : String)
  | secretKeyRef (secretName key : String)
  deriving DecidableEq, Repr

/-- A container environment variable. -/
structure EnvVar where
  name : String
  source : EnvVarSource
  deriving DecidableEq, Repr

/-- Child CronJob content: the fields `upsertPageBuilderCronJob` sets
(lines 227-298 of `controllers/metrics.go`). -/
structure CronJobContent where
  labels : List (String × String)
  schedule : String
  concurrencyPolicy : String
  startingDeadlineSeconds : Int
  suspend : Bool
  successfulJobsHistoryLimit : Int
  failedJobsHistoryLimit : Int
  restartPolicy : String
  containerName : String
  containerImage : String
  env : List EnvVar
  owner : Option ObjKey
  deriving DecidableEq, Repr

/-- Child ConfigMap content: the fields `upsertConfigMap` sets. -/
structure ConfigMapContent where
  labels : List (String × String)
  data : List (String × String)
  owner : Option ObjKey
  deriving DecidableEq, Repr

/-- Child Deployment content: the fields `upsertPageNginxProxy` sets. -/
structure DeploymentContent where
  labels : List (String × String)
  selectorMatchLabels : List (String × String)
  replicas : Int
  templateLabels : List (String × String)
  containerName : String
  containerImage : String
  containerPort : Int
  volumeMountName : String
  volumeMountPath : String
  volumeMountSubPath : String
  volumeMountReadOnly : Bool
  volumeName : String
  volumeConfigMapName : String
  owner : Option ObjKey
  deriving DecidableEq, Repr

/-- Child Service content: the fields `upsertNginxProxyService` sets. -/
structure ServiceContent where
  labels : List (String × String)
  selector : List (String × String)
  portName : String
  protocol : String
  port : Int
  targetPort : Int
  owner : Option ObjKey
  deriving DecidableEq, Repr

/-- TLS block of an Ingress (`networkingv1.IngressTLS`). -/
structure IngressTLSContent where
  hosts : List String
  secretName : String
  deriving DecidableEq, Repr

/-- Child Ingress content: the fields `upsertPageIngress` sets.  The single
HTTP path's type is the string `"Prefix"` (`networkingv1.PathTypePrefix`). -/
structure IngressContent where
  labels : List (String × String)
  annotations : List (String × String)
  ingressClassName : String
  ruleHost : String
  pathStr : String
  pathType : String
  backendServiceName : String
  backendServicePort : Int
  tls : Option IngressTLSContent
  owner : Option ObjKey
  deriving DecidableEq, Repr

/-- The five derived child resource kinds. -/
inductive ResKind where
  | cronJob
  | configMap
  | deployment
  | service
  | ingress
  deriving DecidableEq, Repr

/-- Stored child resource data, tagged by kind. -/
inductive ResData where
  | cronJob (c : CronJobContent)
  | configMap (c : ConfigMapContent)
  | deployment (c : DeploymentContent)
  | service (c : ServiceContent)
  | ingress (c : IngressContent)
  deriving DecidableEq, Repr

/-- The owner reference carried by a stored child resource. -/
def ownerOf : ResData → Option ObjKey
  | .cronJob c => c.owner
  | .configMap c => c.owner
  | .deployment c => c.owner
  | .service c => c.owner
  | .ingress c => c.owner

/-- A write issued against the store, recording the exact object written. -/
inductive WriteOp where
  | create (kind : ResKind) (key : ObjKey) (data : ResData)
  | update (kind : ResKind) (key : ObjKey) (data : ResData)
  deriving DecidableEq, Repr

/-- Owner reference of the object carried by a write. -/
def writeOpOwner : WriteOp → Option ObjKey
  | .create _ _ d => ownerOf d
  | .update _ _ d => ownerOf d

/-- The modelled cluster: stored HugoPages and Settings, the child-resource
store, injectable per-key faults for reads, creates and updates, and the log
of all writes issued so far. -/
structure ClusterState where
  pages : List (ObjKey × HugoPage)
  settingsStore : List (ObjKey × Setting)
  store : List (ResKind × ObjKey × ResData)
  getFaults : List (ResKind × ObjKey)
  createFaults : List (ResKind × ObjKey)
  updateFaults : List (ResKind × ObjKey)
  settingFaults : List ObjKey
  writeLog : List WriteOp
  deriving DecidableEq, Repr

/-- Lookup in a keyed association list. -/
def lookupKeyed {α : Type} : List (ObjKey × α) → ObjKey → Option α
  | [], _ => none
  | (k, v) :: rest, key => if k = key then some v else lookupKeyed rest key

/-- Lookup a child resource in the store by kind and key. -/
def storeGet : List (ResKind × ObjKey × ResData) → ResKind → ObjKey → Option ResData
  | [], _, _ => none
  | (k0, key0, v0) :: rest, k, key =>
      if k0 = k ∧ key0 = key then some v0 else storeGet rest k key

/-- Write a child resource: replace the existing entry in place, or append. -/
def storeSet : List (ResKind × ObjKey × ResData) → ResKind → ObjKey → ResData →
    List (ResKind × ObjKey × ResData)
  | [], k, key, v => [(k, key, v)]
  | (k0, key0, v0) :: rest, k, key, v =>
      if k0 = k ∧ key0 = key then (k0, key0, v) :: rest
      else (k0, key0, v0) :: storeSet rest k key v

/-- Model of `client.Get` for child resources: an injected fault yields a
non-not-found error, an absent object yields a not-found error. -/
def clientGet (st : ClusterState) (kind : ResKind) (key : ObjKey) :
    Option ResData × Option GoError :=
  if (kind, key) ∈ st.getFaults then (none, some (.other "transient read failure"))
  else
    match storeGet st.store kind key with
    | some v => (some v, none)
    | none => (none, some .notFound)

/-- Model of `client.Create`: the write is issued (logged) in every case;
it fails on an injected fault or when the object already exists. -/
def clientCreate (st : ClusterState) (kind : ResKind) (key : ObjKey) (v : ResData) :
    ClusterState × Option GoError :=
  let st1 := { st with writeLog := st.writeLog ++ [.create kind key v] }
  if (kind, key) ∈ st.createFaults then (st1, some (.other "create failure"))
  else
    match storeGet st.store kind key with
    | some _ => (st1, some (.other "already exists"))
    | none => ({ st1 with store := storeSet st1.store kind key v }, none)

/-- Model of `client.Update`: the write is issued (logged) in every case;
it fails on an injected fault or when the object does not exist. -/
def clientUpdate (st : ClusterState) (kind : ResKind) (key : ObjKey) (v : ResData) :
    ClusterState × Option GoError :=
  let st1 := { st with writeLog := st.writeLog ++ [.update kind key v] }
  if (kind, key) ∈ st.updateFaults then (st1, some (.other "update failure"))
  else
    match storeGet st.store kind key with
    | some _ => ({ st1 with store := storeSet st1.store kind key v }, none)
    | none => (st1, some .notFound)

/-- Model of `HugoPageClient.GetNamespaced`: returns the page, or a nil page
together with a not-found error. -/
def pageGetNamespaced (st : ClusterState) (key : ObjKey) :
    Option HugoPage × Option GoError :=
  match lookupKeyed st.pages key with
  | some p => (some p, none)
  | none => (none, some .notFound)

/-- Model of `SettingsClient.GetNameNamespace`: an injected fault yields a
non-not-found error ("unreadable"); an absent Setting yields not-found. -/
def settingsGetNameNamespace (st : ClusterState) (name ns : String) :
    Option Setting × Option GoError :=
  if (ObjKey.mk name ns) ∈ st.settingFaults then
    (none, some (.other "transient read failure"))
  else
    match lookupKeyed st.settingsStore (ObjKey.mk name ns) with
    | some s => (some s, none)
    | none => (none, some .notFound)

/-- `makeLabels` (`controllers/metrics.go` lines 210-216). -/
def makeLabels (page : HugoPage) (component : String) : List (String × String) :=
  [("app", "hugo-hoster"), ("component", component), ("page", page.name)]

/-- Model of `strings.ReplaceAll(s, ".", "-")`: with a one-character pattern
and replacement it is the character-wise map sending every dot to a dash. -/
def replaceDots (s : String) : String :=
  String.mk (s.data.map (fun c => if c = '.' then '-' else c))

/-- Insert a key/value pair into an association-list map, replacing any
existing binding of the key (Go `m[k] = v`). -/
def mapInsert : List (String × String) → String → String → List (String × String)
  | [], k, v => [(k, v)]
  | (k0, v0) :: rest, k, v =>
      if k0 = k then (k0, v) :: rest else (k0, v0) :: mapInsert rest k v

/-- Lookup in an association-list map. -/
def mapLookup : List (String × String) → String → Option String
  | [], _ => none
  | (k0, v0) :: rest, k => if k0 = k then some v0 else mapLookup rest k

/-- Copying all entries of a Go map into an initially empty map
(the `for annotationKey, annotationValue := range ...` loop). -/
def copyAnnotations (src : List (String × String)) : List (String × String) :=
  src.foldl (fun m kv => mapInsert m kv.1 kv.2) []

/-- Literal part of `nginxConfTemplate` before the `proxy_pass` directive. -/
def nginxConfBefore : String :=
  "user  nginx;\n" ++
  "worker_processes  1;\n" ++
  "error_log  /var/log/nginx/error.log warn;\n" ++
  "pid        /var/run/nginx.pid;\n" ++
  "events \x7b\n" ++
  "\tworker_connections  1024;\n" ++
  "\x7d\n" ++
  "http \x7b\n" ++
  "  log_format  main   $remote_addr - $remote_user [$time_local] \"$request\" $status $body_bytes_sent \"$http_referer\" \"$http_user_agent\" \"$http_x_forwarded_for\";\n" ++
  "  include            /etc/nginx/mime.types;\n" ++
  "  default_type       application/octet-stream;\n" ++
  "  access_log         /var/log/nginx/access.log  main;\n" ++
  "  sendfile           on;\n" ++
  "  keepalive_timeout  65;\n" ++
  "  server \x7b\n" ++
  "\tlisten 80;\n" ++
  "\tlisten [::]:80;\n" ++
  "\n" ++
  "\tserver_name _;\n" ++
  "\tresolver kube-dns.kube-system.svc.cluster.local valid=5s;\n" ++
  "\n" ++
  "\tlocation /healthz \x7b\n" ++
  "\t  return 200;\n" ++
  "\t\x7d\n" ++
  "\n" ++
  "\tlocation / \x7b\n" ++
  "\t  rewrite ^(.*)(?!index\\.html)$ $1/index.html last;\n" ++
  "\t  "

/-- Literal part of `nginxConfTemplate` after the `proxy_pass` directive. -/
def nginxConfAfter : String :=
  "\n" ++
  "\t  proxy_redirect off;\n" ++
  "\t  proxy_intercept_errors on;\n" ++
  "\t  proxy_set_header Host $http_host;\n" ++
  "\t  proxy_set_header X-Real-IP $remote_addr;\n" ++
  "\t  proxy_set_header X-Forwarded-For $proxy_add_x_forwarded_for;\n" ++
  "\t  proxy_set_header X-Forwarded-Proto $scheme;\n" ++
  "\t\x7d\n" ++
  "  \x7d\n" ++
  "\x7d\n"

/-- Result of executing `nginxConfTemplate` with the three substitution
values `S3_URL`, `BUCKET_NAME` and `PAGE_NAME` (the `proxy_pass` line reads
`proxy_pass S3_URL/BUCKET_NAME/PAGE_NAME/;`). -/
def renderNginxConf (s3url bucketName pageName : String) : String :=
  nginxConfBefore ++
    ("proxy_pass " ++ s3url ++ "/" ++ bucketName ++ "/" ++ pageName ++ "/;") ++
    nginxConfAfter

/-- The effective storage endpoint used by the rendered proxy configuration:
the proxy-URL override when non-empty, otherwise the S3 endpoint. -/
def effectiveProxyUrl (settings : Setting) : String :=
  if settings.spec.proxyURL = "" then settings.spec.s3Config.endpoint
  else settings.spec.proxyURL

/-- Desired CronJob built by `upsertPageBuilderCronJob` (metrics.go lines
219-298): metadata labels, the fixed spec constants, the build container and
its environment, and the owner reference set by `ctrl.SetControllerReference`
before any write. -/
def desiredCronJob (page : HugoPage) (settings : Setting) : CronJobContent :=
  { labels := makeLabels page "builder"
    schedule := page.spec.cronInterval
    concurrencyPolicy := "Forbid"
    startingDeadlineSeconds := 100
    suspend := false
    successfulJobsHistoryLimit := 3
    failedJobsHistoryLimit := 10
    restartPolicy := "OnFailure"
    containerName := "page-builder"
    containerImage := "ghcr.io/hugo-hoster/page_builder:main"
    env :=
      [⟨"REPO_URL", .value page.spec.repository⟩,
       ⟨"PAGE_NAME", .value page.name⟩,
       ⟨"S3_BUCKET_NAME", .value settings.spec.s3Config.bucketName⟩,
       ⟨"AWS_ACCESS_KEY_ID",
        .secretKeyRef settings.spec.s3Config.secretName
          settings.spec.s3Config.accessKeyIDRef⟩,
       ⟨"AWS_SECRET_ACCESS_KEY",
        .secretKeyRef settings.spec.s3Config.secretName
          settings.spec.s3Config.accessKeyRef⟩,
       ⟨"S3_ENDPOINT", .value settings.spec.s3Config.endpoint⟩]
    owner := some ⟨page.name, page.ns⟩ }

/-- Desired Ingress built by `upsertPageIngress` (metrics.go lines 315-371):
annotations start empty; when `settings.Spec.TLS.Enable` is set a TLS block
is attached whose secret name is `strings.ReplaceAll(page.Name, ".", "-")`
followed by `-page-secret`, and the TLS annotations are copied in. -/
def desiredIngress (page : HugoPage) (settings : Setting) : IngressContent :=
  { labels := makeLabels page "nginx-proxy"
    annotations :=
      if settings.spec.tls.enable then copyAnnotations settings.spec.tls.annotations
      else []
    ingressClassName := settings.spec.ingressClassName
    ruleHost := page.spec.url
    pathStr := "/"
    pathType := "Prefix"
    backendServiceName := "nginx-proxy-" ++ page.name ++ "-svc"
    backendServicePort := 80
    tls :=
      if settings.spec.tls.enable then
        some ⟨[page.spec.url], replaceDots page.name ++ "-page-secret"⟩
      else none
    owner := some ⟨page.name, page.ns⟩ }

/-- Desired Service built by `upsertNginxProxyService` (metrics.go lines
388-413): selector `makeLabels(page, "nginx-proxy")`, TCP port 80. -/
def desiredService (page : HugoPage) : ServiceContent :=
  { labels := makeLabels page "nginx-proxy"
    selector := makeLabels page "nginx-proxy"
    portName := "nginx"
    protocol := "TCP"
    port := 80
    targetPort := 80
    owner := some ⟨page.name, page.ns⟩ }

/-- Desired Deployment built by `upsertPageNginxProxy` (metrics.go lines
430-492): one `nginx:alpine` container mounting the rendered configuration
ConfigMap read-only at `/etc/nginx/nginx.conf`. -/
def desiredDeployment (page : HugoPage) (settings : Setting) : DeploymentContent :=
  { labels := makeLabels page "nginx-proxy"
    selectorMatchLabels := makeLabels page "nginx-proxy"
    replicas := settings.spec.nginxProxyReplica
    templateLabels := makeLabels page "nginx-proxy"
    containerName := "nginx"
    containerImage := "nginx:alpine"
    containerPort := 80
    volumeMountName := "nginx-config"
    volumeMountPath := "/etc/nginx/nginx.conf"
    volumeMountSubPath := "nginx.conf"
    volumeMountReadOnly := true
    volumeName := "nginx-config"
    volumeConfigMapName := "nginx-proxy-conf-" ++ page.name
    owner := some ⟨page.name, page.ns⟩ }

/-- Desired ConfigMap built by `upsertConfigMap` (metrics.go lines 509-545):
one `nginx.conf` entry rendered from the template with the proxy-URL
override falling back to the S3 endpoint. -/
def desiredConfigMap (page : HugoPage) (settings : Setting) : ConfigMapContent :=
  let proxyUrl :=
    if settings.spec.proxyURL = "" then settings.spec.s3Config.endpoint
    else settings.spec.proxyURL
  { labels := makeLabels page "nginx-proxy"
    data :=
      [("nginx.conf",
        renderNginxConf proxyUrl settings.spec.s3Config.bucketName page.name)]
    owner := some ⟨page.name, page.ns⟩ }

/-- Outcome of one upsert call: a Go panic (nil pointer dereference), or the
Go return pair (resource, error) together with the resulting cluster state. -/
inductive UpsertOut (α : Type) where
  | panic (st : ClusterState)
  | ok (val : Option α) (err : Option GoError) (st : ClusterState)
  deriving DecidableEq, Repr

/-- The cluster state carried by an upsert outcome. -/
def upsertOutState {α : Type} : UpsertOut α → ClusterState
  | .panic st => st
  | .ok _ _ st => st

/-- `upsertPageBuilderCronJob` (metrics.go lines 218-313).  A nil page panics
at the first `page.Name` dereference.  Otherwise: read by the page's name,
build the desired object, set the owner reference, create when the read was
not-found, propagate any other read error, then unconditionally update. -/
def upsertPageBuilderCronJob (page : Option HugoPage) (settings : Setting)
    (st : ClusterState) : UpsertOut CronJobContent :=
  match page with
  | none => .panic st
  | some page =>
    let key : ObjKey := ⟨page.name, page.ns⟩
    let (_, err) := clientGet st .cronJob key
    let builderCronJob := desiredCronJob page settings
    match err with
    | some e =>
      if isNotFound e then
        match clientCreate st .cronJob key (.cronJob builderCronJob) with
        | (st1, some ce) =>
            .ok none (errorsWrap (some ce) "Failed to create new page-builder CronJob") st1
        | (st1, none) =>
          match clientUpdate st1 .cronJob key (.cronJob builderCronJob) with
          | (st2, some ue) =>
              .ok none (errorsWrap (some ue) "Failed to update page-builder CronJob") st2
          | (st2, none) => .ok (some builderCronJob) none st2
      else .ok none (errorsWrap (some e) "Failed to get page-builder CronJob") st
    | none =>
      match clientUpdate st .cronJob key (.cronJob builderCronJob) with
      | (st2, some ue) =>
          .ok none (errorsWrap (some ue) "Failed to update page-builder CronJob") st2
      | (st2, none) => .ok (some builderCronJob) none st2

/-- `upsertPageIngress` (metrics.go lines 315-386). -/
def upsertPageIngress (page : Option HugoPage) (settings : Setting)
    (st : ClusterState) : UpsertOut IngressContent :=
  match page with
  | none => .panic st
  | some page =>
    let key : ObjKey := ⟨page.name, page.ns⟩
    let (_, err) := clientGet st .ingress key
    let ingress := desiredIngress page settings
    match err with
    | some e =>
      if isNotFound e then
        match clientCreate st .ingress key (.ingress ingress) with
        | (st1, some ce) =>
            .ok none (errorsWrap (some ce) "Failed to create new hugo-page Ingress") st1
        | (st1, none) =>
          match clientUpdate st1 .ingress key (.ingress ingress) with
          | (st2, some ue) =>
              .ok none (errorsWrap (some ue) "Failed to update hugo-page Ingress") st2
          | (st2, none) => .ok (some ingress) none st2
      else .ok none (errorsWrap (some e) "Failed to get hugo-page Ingress") st
    | none =>
      match clientUpdate st .ingress key (.ingress ingress) with
      | (st2, some ue) =>
          .ok none (errorsWrap (some ue) "Failed to update hugo-page Ingress") st2
      | (st2, none) => .ok (some ingress) none st2

/-- `upsertNginxProxyService` (metrics.go lines 388-428): the service name is
`nginx-proxy-<page>-svc`. -/
def upsertNginxProxyService (page : Option HugoPage) (st : ClusterState) :
    UpsertOut ServiceContent :=
  match page with
  | none => .panic st
  | some page =>
    let key : ObjKey := ⟨"nginx-proxy-" ++ page.name ++ "-svc", page.ns⟩
    let (_, err) := clientGet st .service key
    let service := desiredService page
    match err with
    | some e =>
      if isNotFound e then
        match clientCreate st .service key (.service service) with
        | (st1, some ce) =>
            .ok none (errorsWrap (some ce) "Failed to create new hugo-page nginx service") st1
        | (st1, none) =>
          match clientUpdate st1 .service key (.service service) with
          | (st2, some ue) =>
              .ok none (errorsWrap (some ue) "Failed to update hugo-page nginx service") st2
          | (st2, none) => .ok (some service) none st2
      else .ok none (errorsWrap (some e) "Failed to get hugo-page nginx service") st
    | none =>
      match clientUpdate st .service key (.service service) with
      | (st2, some ue) =>
          .ok none (errorsWrap (some ue) "Failed to update hugo-page nginx service") st2
      | (st2, none) => .ok (some service) none st2

/-- `upsertPageNginxProxy` (metrics.go lines 430-507): the deployment name is
`nginx-proxy-<page>`. -/
def upsertPageNginxProxy (page : Option HugoPage) (settings : Setting)
    (st : ClusterState) : UpsertOut DeploymentContent :=
  match page with
  | none => .panic st
  | some page =>
    let key : ObjKey := ⟨"nginx-proxy-" ++ page.name, page.ns⟩
    let (_, err) := clientGet st .deployment key
    let deployment := desiredDeployment page settings
    match err with
    | some e =>
      if isNotFound e then
        match clientCreate st .deployment key (.deployment deployment) with
        | (st1, some ce) =>
            .ok none (errorsWrap (some ce) "Failed to create new hugo-page nginx proxy deployment") st1
        | (st1, none) =>
          match clientUpdate st1 .deployment key (.deployment deployment) with
          | (st2, some ue) =>
              .ok none (errorsWrap (some ue) "Failed to update hugo-page nginx proxy deployment") st2
          | (st2, none) => .ok (some deployment) none st2
      else .ok none (errorsWrap (some e) "Failed to get hugo-page nginx proxy deployment") st
    | none =>
      match clientUpdate st .deployment key (.deployment deployment) with
      | (st2, some ue) =>
          .ok none (errorsWrap (some ue) "Failed to update hugo-page nginx proxy deployment") st2
      | (st2, none) => .ok (some deployment) none st2

/-- `upsertConfigMap` (metrics.go lines 509-560): the ConfigMap name is
`nginx-proxy-conf-<page>`.  The read error is kept in `clientErr`; the
template-parse error `err` is nil for the fixed template.  In the branch for
a non-not-found read failure the source wraps the nil template-parse `err`,
not `clientErr`, so that branch returns a nil resource and a nil error. -/
def upsertConfigMap (page : Option HugoPage) (settings : Setting)
    (st : ClusterState) : UpsertOut ConfigMapContent :=
  match page with
  | none => .panic st
  | some page =>
    let key : ObjKey := ⟨"nginx-proxy-conf-" ++ page.name, page.ns⟩
    let (_, clientErr) := clientGet st .configMap key
    let templateParseErr : Option GoError := none
    let configMap := desiredConfigMap page settings
    match clientErr with
    | some e =>
      if isNotFound e then
        match clientCreate st .configMap key (.configMap configMap) with
        | (st1, some ce) =>
            .ok none (errorsWrap (some ce) "Failed to create new hugo-page nginx proxy config") st1
        | (st1, none) =>
          match clientUpdate st1 .configMap key (.configMap configMap) with
          | (st2, some ue) =>
              .ok none (errorsWrap (some ue) "Failed to update hugo-page nginx proxy proxy config") st2
          | (st2, none) => .ok (some configMap) none st2
      else
        .ok none (errorsWrap templateParseErr "Failed to get hugo-page nginx proxy proxy config") st
    | none =>
      match clientUpdate st .configMap key (.configMap configMap) with
      | (st2, some ue) =>
          .ok none (errorsWrap (some ue) "Failed to update hugo-page nginx proxy proxy config") st2
      | (st2, none) => .ok (some configMap) none st2

/-- A `ctrl.Result`: requeue flag and requeue delay in seconds. -/
structure CtrlResult where
  requeue : Bool
  requeueAfterSeconds : Nat
  deriving DecidableEq, Repr

/-- The result returned on every upsert failure: requeue after one minute. -/
def requeueOneMinute : CtrlResult := ⟨true, 60⟩

/-- The zero `ctrl.Result{}`: no requeue requested. -/
def noRequeue : CtrlResult := ⟨false, 0⟩

/-- Observable outcome of one `Reconcile` invocation: a Go panic, process
termination (`RecordPanic` / `os.Exit(1)`), or a normal return. -/
inductive ReconcileOutcome where
  | panicked
  | exited
  | done (res : CtrlResult) (err : Option GoError)
  deriving DecidableEq, Repr

/-- Outcome of a reconcile pass together with the final cluster state. -/
structure ReconcileResult where
  outcome : ReconcileOutcome
  st : ClusterState
  deriving DecidableEq, Repr

/-- `HugoPageReconciler.Reconcile` (metrics.go lines 115-195).  The page
fetch result is only logged — a nil page is passed on to the upserts.  A
failed Setting fetch terminates the process.  The five upserts run in order
CronJob, ConfigMap, Deployment, Service, Ingress; the first failure returns
a requeue after one minute together with the upsert's error. -/
def reconcile (settingName : String) (req : ObjKey) (st : ClusterState) :
    ReconcileResult :=
  let pageRes := pageGetNamespaced st req
  -- `if err != nil || page == nil` only logs (RecordInfo / RecordError)
  match settingsGetNameNamespace st settingName req.ns with
  | (none, _) => ⟨.exited, st⟩
  | (some settings, _) =>
    match upsertPageBuilderCronJob pageRes.1 settings st with
    | .panic s => ⟨.panicked, s⟩
    | .ok _ (some e) s => ⟨.done requeueOneMinute (some e), s⟩
    | .ok _ none s1 =>
      match upsertConfigMap pageRes.1 settings s1 with
      | .panic s => ⟨.panicked, s⟩
      | .ok _ (some e) s => ⟨.done requeueOneMinute (some e), s⟩
      | .ok _ none s2 =>
        match upsertPageNginxProxy pageRes.1 settings s2 with
        | .panic s => ⟨.panicked, s⟩
        | .ok _ (some e) s => ⟨.done requeueOneMinute (some e), s⟩
        | .ok _ none s3 =>
          match upsertNginxProxyService pageRes.1 s3 with
          | .panic s => ⟨.panicked, s⟩
          | .ok _ (some e) s => ⟨.done requeueOneMinute (some e), s⟩
          | .ok _ none s4 =>
            match upsertPageIngress pageRes.1 settings s4 with
            | .panic s => ⟨.panicked, s⟩
            | .ok _ (some e) s => ⟨.done requeueOneMinute (some e), s⟩
            | .ok _ none s5 => ⟨.done noRequeue none, s5⟩

/-- The resource returned by an upsert (nil on the panic outcome). -/
def upsertOutVal {α : Type} : UpsertOut α → Option α
  | .panic _ => none
  | .ok v _ _ => v

/-- The writes an upsert issues for a resource, as a function of the prior
store: a create followed by an update when the object is absent, a single
update otherwise. -/
def issuedWrites (st : ClusterState) (kind : ResKind) (key : ObjKey) (v : ResData) :
    List WriteOp :=
  if storeGet st.store kind key = none then [.create kind key v, .update kind key v]
  else [.update kind key v]

/-- Cascade deletion by the garbage collector: removing an owner removes
every stored resource whose owner reference points to it. -/
def cascadeDelete (owner : ObjKey) (store : List (ResKind × ObjKey × ResData)) :
    List (ResKind × ObjKey × ResData) :=
  store.filter (fun e => decide (ownerOf e.2.2 ≠ some owner))

/-- Selector semantics: a selector matches a label set when every selector
entry appears in the label set. -/
def selMatches (sel labels : List (String × String)) : Prop :=
  ∀ k v, mapLookup sel k = some v → mapLookup labels k = some v

/-- Example Site: name `blog`, namespace `default`, URL `docs.example.com`. -/
def examplePage : HugoPage :=
  ⟨"blog", "default",
   ⟨"https://github.com/cedi/cedi.github.io.git", "main", "docs.example.com",
    "cron", "*/5 * * * *"⟩⟩

/-- A second example Site with a different name. -/
def examplePage2 : HugoPage :=
  ⟨"shop", "default",
   ⟨"https://github.com/cedi/shop.git", "main", "shop.example.com",
    "cron", "*/5 * * * *"⟩⟩

/-- Example SiteConfig: TLS enabled with one annotation, no proxy-URL
override, S3 endpoint `https://s3.example.com`, bucket `my-bucket`. -/
def exampleSetting : Setting :=
  ⟨⟨⟨true, [("cert-manager.io/cluster-issuer", "letsencrypt")]⟩,
    "nginx",
    ⟨"https://s3.example.com", "my-bucket", "s3-secret", "AccessKeyId", "AccessKey"⟩,
    "", 1⟩⟩

/-- Example SiteConfig whose proxy-URL override is set to the other
example's S3 endpoint (the S3 endpoint itself differs). -/
def exampleSettingOverride : Setting :=
  ⟨⟨⟨true, [("cert-manager.io/cluster-issuer", "letsencrypt")]⟩,
    "nginx",
    ⟨"https://internal.storage.local", "my-bucket", "s3-secret", "AccessKeyId", "AccessKey"⟩,
    "https://s3.example.com", 1⟩⟩

/-- Cluster with the example Site and the `settings` SiteConfig stored, an
empty child store, and no faults. -/
def exampleState : ClusterState :=
  ⟨[(⟨"blog", "default"⟩, examplePage)],
   [(⟨"settings", "default"⟩, exampleSetting)],
   [], [], [], [], [], []⟩

/-- Cluster where the requested Site is absent but the SiteConfig exists. -/
def exampleStateNoPage : ClusterState :=
  ⟨[], [(⟨"settings", "default"⟩, exampleSetting)], [], [], [], [], [], []⟩

/-- Cluster where the Site exists but no SiteConfig is stored. -/
def exampleStateNoSettings : ClusterState :=
  ⟨[(⟨"blog", "default"⟩, examplePage)], [], [], [], [], [], [], []⟩

/-- Example cluster with a non-not-found read fault on the Site's
ConfigMap key. -/
def exampleStateCmFault : ClusterState :=
  { exampleState with getFaults := [(.configMap, ⟨"nginx-proxy-conf-blog", "default"⟩)] }

/-- Example cluster with a non-not-found read fault on the Site's
CronJob key. -/
def exampleStateCronFault : ClusterState :=
  { exampleState with getFaults := [(.cronJob, ⟨"blog", "default"⟩)] }

/-- Reading back a key just written returns the written value. -/
theorem storeGet_storeSet_self (s : List (ResKind × ObjKey × ResData))
    (k : ResKind) (key : ObjKey) (v : ResData) :
    storeGet (storeSet s k key v) k key = some v := by
  induction s with
  | nil => simp [storeSet, storeGet]
  | cons head rest ih =>
    obtain ⟨k0, key0, v0⟩ := head
    by_cases h : k0 = k ∧ key0 = key
    · simp [storeSet, storeGet, h]
    · simp [storeSet, storeGet, h, ih]

/-- Writing the same value twice leaves the store of the first write. -/
theorem storeSet_storeSet_self (s : List (ResKind × ObjKey × ResData))
    (k : ResKind) (key : ObjKey) (v : ResData) :
    storeSet (storeSet s k key v) k key v = storeSet s k key v := by
  induction s with
  | nil => simp [storeSet]
  | cons head rest ih =>
    obtain ⟨k0, key0, v0⟩ := head
    by_cases h : k0 = k ∧ key0 = key
    · simp [storeSet, h]
    · simp [storeSet, h, ih]

/-- Looking up the key just inserted returns the inserted value. -/
theorem mapLookup_mapInsert_self (m : List (String × String)) (k v : String) :
    mapLookup (mapInsert m k v) k = some v := by
  induction m with
  | nil => simp [mapInsert, mapLookup]
  | cons head rest ih =>
    obtain ⟨k0, v0⟩ := head
    by_cases h : k0 = k
    · simp [mapInsert, mapLookup, h]
    · simp [mapInsert, mapLookup, h, ih]

/-- Inserting under a different key does not change a lookup. -/
theorem mapLookup_mapInsert_ne (m : List (String × String)) (kI vI k : String)
    (h : kI ≠ k) : mapLookup (mapInsert m kI vI) k = mapLookup m k := by
  induction m with
  | nil => simp [mapInsert, mapLookup, h]
  | cons head rest ih =>
    obtain ⟨k0, v0⟩ := head
    by_cases h0 : k0 = kI
    · subst h0
      simp [mapInsert, mapLookup, h]
    · simp [mapInsert, mapLookup, h0, ih]

/-- Folding inserts whose keys avoid `k` does not change the lookup of `k`. -/
theorem foldl_mapInsert_of_notmem (l : List (String × String))
    (m : List (String × String)) (k : String) (h : k ∉ l.map Prod.fst) :
    mapLookup (l.foldl (fun acc kv => mapInsert acc kv.1 kv.2) m) k = mapLookup m k := by
  induction l generalizing m with
  | nil => rfl
  | cons head rest ih =>
    simp only [List.map_cons, List.mem_cons] at h
    push_neg at h
    simp only [List.foldl_cons]
    rw [ih _ h.2, mapLookup_mapInsert_ne _ _ _ _ (Ne.symm h.1)]

/-- If the source map has no duplicate keys, every pair of it is found in
the copied map. -/
theorem copyAnnotations_lookup (l : List (String × String))
    (hnd : (l.map Prod.fst).Nodup) (k v : String) (hmem : (k, v) ∈ l) :
    mapLookup (copyAnnotations l) k = some v := by
  suffices h : ∀ m : List (String × String),
      mapLookup (l.foldl (fun acc kv => mapInsert acc kv.1 kv.2) m) k = some v by
    exact h []
  induction l with
  | nil => simp at hmem
  | cons head rest ih =>
    intro m
    simp only [List.map_cons, List.nodup_cons] at hnd
    simp only [List.foldl_cons]
    rcases List.mem_cons.mp hmem with hEq | hTail
    · subst hEq
      rw [foldl_mapInsert_of_notmem rest _ k hnd.1]
      exact mapLookup_mapInsert_self m k v
    · exact ih hnd.2 hTail _

/-- A fault-free read of an absent object reports not-found. -/
theorem clientGet_absent (st : ClusterState) (kind : ResKind) (key : ObjKey)
    (hg : (kind, key) ∉ st.getFaults) (h : storeGet st.store kind key = none) :
    clientGet st kind key = (none, some .notFound) := by
  simp [clientGet, hg, h]

/-- A fault-free read of a present object returns it. -/
theorem clientGet_found (st : ClusterState) (kind : ResKind) (key : ObjKey)
    (v : ResData) (hg : (kind, key) ∉ st.getFaults)
    (h : storeGet st.store kind key = some v) :
    clientGet st kind key = (some v, none) := by
  simp [clientGet, hg, h]

/-- A fault-free create of an absent object stores it and logs the write. -/
theorem clientCreate_ok (st : ClusterState) (kind : ResKind) (key : ObjKey)
    (v : ResData) (hc : (kind, key) ∉ st.createFaults)
    (h : storeGet st.store kind key = none) :
    clientCreate st kind key v =
      ({ st with store := storeSet st.store kind key v,
                 writeLog := st.writeLog ++ [.create kind key v] }, none) := by
  simp [clientCreate, hc, h]

/-- A fault-free update of a present object stores the new value and logs
the write. -/
theorem clientUpdate_ok (st : ClusterState) (kind : ResKind) (key : ObjKey)
    (v w : ResData) (hu : (kind, key) ∉ st.updateFaults)
    (h : storeGet st.store kind key = some w) :
    clientUpdate st kind key v =
      ({ st with store := storeSet st.store kind key v,
                 writeLog := st.writeLog ++ [.update kind key v] }, none) := by
  simp [clientUpdate, hu, h]

/-- Any create appends exactly its own write to the log. -/
theorem clientCreate_writeLog (st : ClusterState) (kind : ResKind) (key : ObjKey)
    (v : ResData) :
    (clientCreate st kind key v).1.writeLog = st.writeLog ++ [.create kind key v] := by
  unfold clientCreate
  split
  · rfl
  · split <;> rfl

/-- Any update appends exactly its own write to the log. -/
theorem clientUpdate_writeLog (st : ClusterState) (kind : ResKind) (key : ObjKey)
    (v : ResData) :
    (clientUpdate st kind key v).1.writeLog = st.writeLog ++ [.update kind key v] := by
  unfold clientUpdate
  split
  · rfl
  · split <;> rfl

/-- Fault-free behaviour of the CronJob upsert: it returns the desired
object, writes it to the store, and issues a create-then-update or a single
update according to the prior state. -/
theorem upsertPageBuilderCronJob_noFault (page : HugoPage) (settings : Setting)
    (st : ClusterState)
    (hg : (ResKind.cronJob, (⟨page.name, page.ns⟩ : ObjKey)) ∉ st.getFaults)
    (hc : (ResKind.cronJob, (⟨page.name, page.ns⟩ : ObjKey)) ∉ st.createFaults)
    (hu : (ResKind.cronJob, (⟨page.name, page.ns⟩ : ObjKey)) ∉ st.updateFaults) :
    upsertPageBuilderCronJob (some page) settings st =
      .ok (some (desiredCronJob page settings)) none
        { st with
          store := storeSet st.store .cronJob ⟨page.name, page.ns⟩
            (.cronJob (desiredCronJob page settings)),
          writeLog := st.writeLog ++
            issuedWrites st .cronJob ⟨page.name, page.ns⟩
              (.cronJob (desiredCronJob page settings)) } := by
  cases habs : storeGet st.store .cronJob ⟨page.name, page.ns⟩ with
  | none =>
    simp [upsertPageBuilderCronJob, clientGet, clientCreate, clientUpdate,
      hg, hc, hu, habs, isNotFound, issuedWrites,
      storeGet_storeSet_self, storeSet_storeSet_self, List.singleton_append,
      List.append_assoc, List.cons_append, List.nil_append]
  | some v =>
    simp [upsertPageBuilderCronJob, clientGet, clientCreate, clientUpdate,
      hg, hc, hu, habs, isNotFound, issuedWrites,
      storeGet_storeSet_self, storeSet_storeSet_self]

/-- Fault-free behaviour of the ConfigMap upsert. -/
theorem upsertConfigMap_noFault (page : HugoPage) (settings : Setting)
    (st : ClusterState)
    (hg : (ResKind.configMap, (⟨"nginx-proxy-conf-" ++ page.name, page.ns⟩ : ObjKey)) ∉ st.getFaults)
    (hc : (ResKind.configMap, (⟨"nginx-proxy-conf-" ++ page.name, page.ns⟩ : ObjKey)) ∉ st.createFaults)
    (hu : (ResKind.configMap, (⟨"nginx-proxy-conf-" ++ page.name, page.ns⟩ : ObjKey)) ∉ st.updateFaults) :
    upsertConfigMap (some page) settings st =
      .ok (some (desiredConfigMap page settings)) none
        { st with
          store := storeSet st.store .configMap ⟨"nginx-proxy-conf-" ++ page.name, page.ns⟩
            (.configMap (desiredConfigMap page settings)),
          writeLog := st.writeLog ++
            issuedWrites st .configMap ⟨"nginx-proxy-conf-" ++ page.name, page.ns⟩
              (.configMap (desiredConfigMap page settings)) } := by
  cases habs : storeGet st.store .configMap ⟨"nginx-proxy-conf-" ++ page.name, page.ns⟩ with
  | none =>
    simp [upsertConfigMap, clientGet, clientCreate, clientUpdate,
      hg, hc, hu, habs, isNotFound, issuedWrites,
      storeGet_storeSet_self, storeSet_storeSet_self, List.singleton_append,
      List.append_assoc, List.cons_append, List.nil_append]
  | some v =>
    simp [upsertConfigMap, clientGet, clientCreate, clientUpdate,
      hg, hc, hu, habs, isNotFound, issuedWrites,
      storeGet_storeSet_self, storeSet_storeSet_self]

/-- Fault-free behaviour of the Deployment upsert. -/
theorem upsertPageNginxProxy_noFault (page : HugoPage) (settings : Setting)
    (st : ClusterState)
    (hg : (ResKind.deployment, (⟨"nginx-proxy-" ++ page.name, page.ns⟩ : ObjKey)) ∉ st.getFaults)
    (hc : (ResKind.deployment, (⟨"nginx-proxy-" ++ page.name, page.ns⟩ : ObjKey)) ∉ st.createFaults)
    (hu : (ResKind.deployment, (⟨"nginx-proxy-" ++ page.name, page.ns⟩ : ObjKey)) ∉ st.updateFaults) :
    upsertPageNginxProxy (some page) settings st =
      .ok (some (desiredDeployment page settings)) none
        { st with
          store := storeSet st.store .deployment ⟨"nginx-proxy-" ++ page.name, page.ns⟩
            (.deployment (desiredDeployment page settings)),
          writeLog := st.writeLog ++
            issuedWrites st .deployment ⟨"nginx-proxy-" ++ page.name, page.ns⟩
              (.deployment (desiredDeployment page settings)) } := by
  cases habs : storeGet st.store .deployment ⟨"nginx-proxy-" ++ page.name, page.ns⟩ with
  | none =>
    simp [upsertPageNginxProxy, clientGet, clientCreate, clientUpdate,
      hg, hc, hu, habs, isNotFound, issuedWrites,
      storeGet_storeSet_self, storeSet_storeSet_self, List.singleton_append,
      List.append_assoc, List.cons_append, List.nil_append]
  | some v =>
    simp [upsertPageNginxProxy, clientGet, clientCreate, clientUpdate,
      hg, hc, hu, habs, isNotFound, issuedWrites,
      storeGet_storeSet_self, storeSet_storeSet_self]

/-- Fault-free behaviour of the Service upsert. -/
theorem upsertNginxProxyService_noFault (page : HugoPage) (st : ClusterState)
    (hg : (ResKind.service, (⟨"nginx-proxy-" ++ page.name ++ "-svc", page.ns⟩ : ObjKey)) ∉ st.getFaults)
    (hc : (ResKind.service, (⟨"nginx-proxy-" ++ page.name ++ "-svc", page.ns⟩ : ObjKey)) ∉ st.createFaults)
    (hu : (ResKind.service, (⟨"nginx-proxy-" ++ page.name ++ "-svc", page.ns⟩ : ObjKey)) ∉ st.updateFaults) :
    upsertNginxProxyService (some page) st =
      .ok (some (desiredService page)) none
        { st with
          store := storeSet st.store .service ⟨"nginx-proxy-" ++ page.name ++ "-svc", page.ns⟩
            (.service (desiredService page)),
          writeLog := st.writeLog ++
            issuedWrites st .service ⟨"nginx-proxy-" ++ page.name ++ "-svc", page.ns⟩
              (.service (desiredService page)) } := by
  cases habs : storeGet st.store .service ⟨"nginx-proxy-" ++ page.name ++ "-svc", page.ns⟩ with
  | none =>
    simp [upsertNginxProxyService, clientGet, clientCreate, clientUpdate,
      hg, hc, hu, habs, isNotFound, issuedWrites,
      storeGet_storeSet_self, storeSet_storeSet_self, List.singleton_append,
      List.append_assoc, List.cons_append, List.nil_append]
  | some v =>
    simp [upsertNginxProxyService, clientGet, clientCreate, clientUpdate,
      hg, hc, hu, habs, isNotFound, issuedWrites,
      storeGet_storeSet_self, storeSet_storeSet_self]

/-- Fault-free behaviour of the Ingress upsert. -/
theorem upsertPageIngress_noFault (page : HugoPage) (settings : Setting)
    (st : ClusterState)
    (hg : (ResKind.ingress, (⟨page.name, page.ns⟩ : ObjKey)) ∉ st.getFaults)
    (hc : (ResKind.ingress, (⟨page.name, page.ns⟩ : ObjKey)) ∉ st.createFaults)
    (hu : (ResKind.ingress, (⟨page.name, page.ns⟩ : ObjKey)) ∉ st.updateFaults) :
    upsertPageIngress (some page) settings st =
      .ok (some (desiredIngress page settings)) none
        { st with
          store := storeSet st.store .ingress ⟨page.name, page.ns⟩
            (.ingress (desiredIngress page settings)),
          writeLog := st.writeLog ++
            issuedWrites st .ingress ⟨page.name, page.ns⟩
              (.ingress (desiredIngress page settings)) } := by
  cases habs : storeGet st.store .ingress ⟨page.name, page.ns⟩ with
  | none =>
    simp [upsertPageIngress, clientGet, clientCreate, clientUpdate,
      hg, hc, hu, habs, isNotFound, issuedWrites,
      storeGet_storeSet_self, storeSet_storeSet_self, List.singleton_append,
      List.append_assoc, List.cons_append, List.nil_append]
  | some v =>
    simp [upsertPageIngress, clientGet, clientCreate, clientUpdate,
      hg, hc, hu, habs, isNotFound, issuedWrites,
      storeGet_storeSet_self, storeSet_storeSet_self]

/-- Every write issued by the CronJob upsert carries the Site as owner. -/
theorem upsertPageBuilderCronJob_log_owner (page : HugoPage) (settings : Setting)
    (st : ClusterState) (w : WriteOp)
    (hw : w ∈ (upsertOutState (upsertPageBuilderCronJob (some page) settings st)).writeLog) :
    w ∈ st.writeLog ∨ writeOpOwner w = some ⟨page.name, page.ns⟩ := by
  by_cases hg : (ResKind.cronJob, (⟨page.name, page.ns⟩ : ObjKey)) ∈ st.getFaults
  · simp [upsertPageBuilderCronJob, clientGet, upsertOutState, isNotFound, hg] at hw
    exact Or.inl hw
  · cases habs : storeGet st.store .cronJob ⟨page.name, page.ns⟩ with
    | some v =>
      by_cases huf : (ResKind.cronJob, (⟨page.name, page.ns⟩ : ObjKey)) ∈ st.updateFaults
      · simp [upsertPageBuilderCronJob, clientGet, clientUpdate, upsertOutState,
          isNotFound, hg, habs, huf, List.mem_append] at hw
        rcases hw with hw | rfl
        · exact Or.inl hw
        · exact Or.inr rfl
      · simp [upsertPageBuilderCronJob, clientGet, clientUpdate, upsertOutState,
          isNotFound, hg, habs, huf, List.mem_append] at hw
        rcases hw with hw | rfl
        · exact Or.inl hw
        · exact Or.inr rfl
    | none =>
      by_cases hcf : (ResKind.cronJob, (⟨page.name, page.ns⟩ : ObjKey)) ∈ st.createFaults
      · simp [upsertPageBuilderCronJob, clientGet, clientCreate, upsertOutState,
          isNotFound, hg, habs, hcf, List.mem_append] at hw
        rcases hw with hw | rfl
        · exact Or.inl hw
        · exact Or.inr rfl
      · by_cases huf : (ResKind.cronJob, (⟨page.name, page.ns⟩ : ObjKey)) ∈ st.updateFaults
        · simp [upsertPageBuilderCronJob, clientGet, clientCreate, clientUpdate,
            upsertOutState, isNotFound, hg, habs, hcf, huf,
            storeGet_storeSet_self, List.mem_append] at hw
          rcases hw with hw | rfl | rfl
          · exact Or.inl hw
          · exact Or.inr rfl
          · exact Or.inr rfl
        · simp [upsertPageBuilderCronJob, clientGet, clientCreate, clientUpdate,
            upsertOutState, isNotFound, hg, habs, hcf, huf,
            storeGet_storeSet_self, List.mem_append] at hw
          rcases hw with hw | rfl | rfl
          · exact Or.inl hw
          · exact Or.inr rfl
          · exact Or.inr rfl

/-- After cascade deletion of an owner, no stored resource owned by it
remains. -/
theorem cascadeDelete_removes_owned (owner : ObjKey)
    (store : List (ResKind × ObjKey × ResData)) (e : ResKind × ObjKey × ResData)
    (he : e ∈ cascadeDelete owner store) : ownerOf e.2.2 ≠ some owner := by
  simp only [cascadeDelete, List.mem_filter, decide_eq_true_eq] at he
  exact he.2

/-- The `page` label of any `makeLabels` set is the page's name. -/
theorem mapLookup_makeLabels_page (page : HugoPage) (c : String) :
    mapLookup (makeLabels page c) "page" = some page.name := by
  simp [makeLabels, mapLookup]

/-- Every write issued by the ConfigMap upsert carries the Site as owner. -/
theorem upsertConfigMap_log_owner (page : HugoPage) (settings : Setting)
    (st : ClusterState) (w : WriteOp)
    (hw : w ∈ (upsertOutState (upsertConfigMap (some page) settings st)).writeLog) :
    w ∈ st.writeLog ∨ writeOpOwner w = some ⟨page.name, page.ns⟩ := by
  by_cases hg : (ResKind.configMap, (⟨"nginx-proxy-conf-" ++ page.name, page.ns⟩ : ObjKey)) ∈ st.getFaults
  · simp [upsertConfigMap, clientGet, upsertOutState, isNotFound, hg] at hw
    exact Or.inl hw
  · cases habs : storeGet st.store .configMap ⟨"nginx-proxy-conf-" ++ page.name, page.ns⟩ with
    | some v =>
      by_cases huf : (ResKind.configMap, (⟨"nginx-proxy-conf-" ++ page.name, page.ns⟩ : ObjKey)) ∈ st.updateFaults
      · simp [upsertConfigMap, clientGet, clientUpdate, upsertOutState,
          isNotFound, hg, habs, huf, List.mem_append] at hw
        rcases hw with hw | rfl
        · exact Or.inl hw
        · exact Or.inr rfl
      · simp [upsertConfigMap, clientGet, clientUpdate, upsertOutState,
          isNotFound, hg, habs, huf, List.mem_append] at hw
        rcases hw with hw | rfl
        · exact Or.inl hw
        · exact Or.inr rfl
    | none =>
      by_cases hcf : (ResKind.configMap, (⟨"nginx-proxy-conf-" ++ page.name, page.ns⟩ : ObjKey)) ∈ st.createFaults
      · simp [upsertConfigMap, clientGet, clientCreate, upsertOutState,
          isNotFound, hg, habs, hcf, List.mem_append] at hw
        rcases hw with hw | rfl
        · exact Or.inl hw
        · exact Or.inr rfl
      · by_cases huf : (ResKind.configMap, (⟨"nginx-proxy-conf-" ++ page.name, page.ns⟩ : ObjKey)) ∈ st.updateFaults
        · simp [upsertConfigMap, clientGet, clientCreate, clientUpdate,
            upsertOutState, isNotFound, hg, habs, hcf, huf,
            storeGet_storeSet_self, List.mem_append] at hw
          rcases hw with hw | rfl | rfl
          · exact Or.inl hw
          · exact Or.inr rfl
          · exact Or.inr rfl
        · simp [upsertConfigMap, clientGet, clientCreate, clientUpdate,
            upsertOutState, isNotFound, hg, habs, hcf, huf,
            storeGet_storeSet_self, List.mem_append] at hw
          rcases hw with hw | rfl | rfl
          · exact Or.inl hw
          · exact Or.inr rfl
          · exact Or.inr rfl


/-- Every write issued by the Deployment upsert carries the Site as owner. -/
theorem upsertPageNginxProxy_log_owner (page : HugoPage) (settings : Setting)
    (st : ClusterState) (w : WriteOp)
    (hw : w ∈ (upsertOutState (upsertPageNginxProxy (some page) settings st)).writeLog) :
    w ∈ st.writeLog ∨ writeOpOwner w = some ⟨page.name, page.ns⟩ := by
  by_cases hg : (ResKind.deployment, (⟨"nginx-proxy-" ++ page.name, page.ns⟩ : ObjKey)) ∈ st.getFaults
  · simp [upsertPageNginxProxy, clientGet, upsertOutState, isNotFound, hg] at hw
    exact Or.inl hw
  · cases habs : storeGet st.store .deployment ⟨"nginx-proxy-" ++ page.name, page.ns⟩ with
    | some v =>
      by_cases huf : (ResKind.deployment, (⟨"nginx-proxy-" ++ page.name, page.ns⟩ : ObjKey)) ∈ st.updateFaults
      · simp [upsertPageNginxProxy, clientGet, clientUpdate, upsertOutState,
          isNotFound, hg, habs, huf, List.mem_append] at hw
        rcases hw with hw | rfl
        · exact Or.inl hw
        · exact Or.inr rfl
      · simp [upsertPageNginxProxy, clientGet, clientUpdate, upsertOutState,
          isNotFound, hg, habs, huf, List.mem_append] at hw
        rcases hw with hw | rfl
        · exact Or.inl hw
        · exact Or.inr rfl
    | none =>
      by_cases hcf : (ResKind.deployment, (⟨"nginx-proxy-" ++ page.name, page.ns⟩ : ObjKey)) ∈ st.createFaults
      · simp [upsertPageNginxProxy, clientGet, clientCreate, upsertOutState,
          isNotFound, hg, habs, hcf, List.mem_append] at hw
        rcases hw with hw | rfl
        · exact Or.inl hw
        · exact Or.inr rfl
      · by_cases huf : (ResKind.deployment, (⟨"nginx-proxy-" ++ page.name, page.ns⟩ : ObjKey)) ∈ st.updateFaults
        · simp [upsertPageNginxProxy, clientGet, clientCreate, clientUpdate,
            upsertOutState, isNotFound, hg, habs, hcf, huf,
            storeGet_storeSet_self, List.mem_append] at hw
          rcases hw with hw | rfl | rfl
          · exact Or.inl hw
          · exact Or.inr rfl
          · exact Or.inr rfl
        · simp [upsertPageNginxProxy, clientGet, clientCreate, clientUpdate,
            upsertOutState, isNotFound, hg, habs, hcf, huf,
            storeGet_storeSet_self, List.mem_append] at hw
          rcases hw with hw | rfl | rfl
          · exact Or.inl hw
          · exact Or.inr rfl
          · exact Or.inr rfl


/-- Every write issued by the Service upsert carries the Site as owner. -/
theorem upsertNginxProxyService_log_owner (page : HugoPage)
    (st : ClusterState) (w : WriteOp)
    (hw : w ∈ (upsertOutState (upsertNginxProxyService (some page) st)).writeLog) :
    w ∈ st.writeLog ∨ writeOpOwner w = some ⟨page.name, page.ns⟩ := by
  by_cases hg : (ResKind.service, (⟨"nginx-proxy-" ++ page.name ++ "-svc", page.ns⟩ : ObjKey)) ∈ st.getFaults
  · simp [upsertNginxProxyService, clientGet, upsertOutState, isNotFound, hg] at hw
    exact Or.inl hw
  · cases habs : storeGet st.store .service ⟨"nginx-proxy-" ++ page.name ++ "-svc", page.ns⟩ with
    | some v =>
      by_cases huf : (ResKind.service, (⟨"nginx-proxy-" ++ page.name ++ "-svc", page.ns⟩ : ObjKey)) ∈ st.updateFaults
      · simp [upsertNginxProxyService, clientGet, clientUpdate, upsertOutState,
          isNotFound, hg, habs, huf, List.mem_append] at hw
        rcases hw with hw | rfl
        · exact Or.inl hw
        · exact Or.inr rfl
      · simp [upsertNginxProxyService, clientGet, clientUpdate, upsertOutState,
          isNotFound, hg, habs, huf, List.mem_append] at hw
        rcases hw with hw | rfl
        · exact Or.inl hw
        · exact Or.inr rfl
    | none =>
      by_cases hcf : (ResKind.service, (⟨"nginx-proxy-" ++ page.name ++ "-svc", page.ns⟩ : ObjKey)) ∈ st.createFaults
      · simp [upsertNginxProxyService, clientGet, clientCreate, upsertOutState,
          isNotFound, hg, habs, hcf, List.mem_append] at hw
        rcases hw with hw | rfl
        · exact Or.inl hw
        · exact Or.inr rfl
      · by_cases huf : (ResKind.service, (⟨"nginx-proxy-" ++ page.name ++ "-svc", page.ns⟩ : ObjKey)) ∈ st.updateFaults
        · simp [upsertNginxProxyService, clientGet, clientCreate, clientUpdate,
            upsertOutState, isNotFound, hg, habs, hcf, huf,
            storeGet_storeSet_self, List.mem_append] at hw
          rcases hw with hw | rfl | rfl
          · exact Or.inl hw
          · exact Or.inr rfl
          · exact Or.inr rfl
        · simp [upsertNginxProxyService, clientGet, clientCreate, clientUpdate,
            upsertOutState, isNotFound, hg, habs, hcf, huf,
            storeGet_storeSet_self, List.mem_append] at hw
          rcases hw with hw | rfl | rfl
          · exact Or.inl hw
          · exact Or.inr rfl
          · exact Or.inr rfl


/-- Every write issued by the Ingress upsert carries the Site as owner. -/
theorem upsertPageIngress_log_owner (page : HugoPage) (settings : Setting)
    (st : ClusterState) (w : WriteOp)
    (hw : w ∈ (upsertOutState (upsertPageIngress (some page) settings st)).writeLog) :
    w ∈ st.writeLog ∨ writeOpOwner w = some ⟨page.name, page.ns⟩ := by
  by_cases hg : (ResKind.ingress, (⟨page.name, page.ns⟩ : ObjKey)) ∈ st.getFaults
  · simp [upsertPageIngress, clientGet, upsertOutState, isNotFound, hg] at hw
    exact Or.inl hw
  · cases habs : storeGet st.store .ingress ⟨page.name, page.ns⟩ with
    | some v =>
      by_cases huf : (ResKind.ingress, (⟨page.name, page.ns⟩ : ObjKey)) ∈ st.updateFaults
      · simp [upsertPageIngress, clientGet, clientUpdate, upsertOutState,
          isNotFound, hg, habs, huf, List.mem_append] at hw
        rcases hw with hw | rfl
        · exact Or.inl hw
        · exact Or.inr rfl
      · simp [upsertPageIngress, clientGet, clientUpdate, upsertOutState,
          isNotFound, hg, habs, huf, List.mem_append] at hw
        rcases hw with hw | rfl
        · exact Or.inl hw
        · exact Or.inr rfl
    | none =>
      by_cases hcf : (ResKind.ingress, (⟨page.name, page.ns⟩ : ObjKey)) ∈ st.createFaults
      · simp [upsertPageIngress, clientGet, clientCreate, upsertOutState,
          isNotFound, hg, habs, hcf, List.mem_append] at hw
        rcases hw with hw | rfl
        · exact Or.inl hw
        · exact Or.inr rfl
      · by_cases huf : (ResKind.ingress, (⟨page.name, page.ns⟩ : ObjKey)) ∈ st.updateFaults
        · simp [upsertPageIngress, clientGet, clientCreate, clientUpdate,
            upsertOutState, isNotFound, hg, habs, hcf, huf,
            storeGet_storeSet_self, List.mem_append] at hw
          rcases hw with hw | rfl | rfl
          · exact Or.inl hw
          · exact Or.inr rfl
          · exact Or.inr rfl
        · simp [upsertPageIngress, clientGet, clientCreate, clientUpdate,
            upsertOutState, isNotFound, hg, habs, hcf, huf,
            storeGet_storeSet_self, List.mem_append] at hw
          rcases hw with hw | rfl | rfl
          · exact Or.inl hw
          · exact Or.inr rfl
          · exact Or.inr rfl

/-- C1: the spec says a reconcile request whose Site is absent returns
no-retry, no-error with no child upsert.  The code only logs the not-found
result and falls through (there is no early return), so the nil Site is
passed to the first upsert, which dereferences it: at a concrete state with
the Site absent and the Setting present, the pass panics instead of
returning benignly.  No write is issued (the final state is unchanged). -/
theorem absent_site_reconcile_panics :
    reconcile "settings" ⟨"blog", "default"⟩ exampleStateNoPage =
      ⟨.panicked, exampleStateNoPage⟩ ∧
    pageGetNamespaced exampleStateNoPage ⟨"blog", "default"⟩ =
      (none, some .notFound) ∧
    (ReconcileResult.mk .panicked exampleStateNoPage ≠
      ⟨.done noRequeue none, exampleStateNoPage⟩) :=
  ⟨rfl, rfl, by decide⟩

/-- C3: when the Setting named by the configured settings name is absent or
unreadable in the request's namespace, Reconcile aborts the process before
any child upsert: the outcome is the process exit and the cluster state —
including the write log — is unchanged. -/
theorem missing_settings_short_circuits (settingName : String) (req : ObjKey)
    (st : ClusterState)
    (h : (settingsGetNameNamespace st settingName req.ns).1 = none) :
    reconcile settingName req st = ⟨.exited, st⟩ := by
  rcases hq : settingsGetNameNamespace st settingName req.ns with ⟨s1, e1⟩
  rw [hq] at h
  simp only at h
  subst h
  unfold reconcile
  rw [hq]

/-- Witness for C3 at a concrete cluster with no Setting stored. -/
theorem missing_settings_short_circuits_witness :
    reconcile "settings" ⟨"blog", "default"⟩ exampleStateNoSettings =
      ⟨.exited, exampleStateNoSettings⟩ :=
  missing_settings_short_circuits "settings" ⟨"blog", "default"⟩
    exampleStateNoSettings rfl

/-- C4: with the Site and Setting both fetchable, Reconcile runs the five
upserts in the order CronJob, ConfigMap, Deployment, Service, Ingress; the
first upsert that returns an error ends the pass immediately with a requeue
after exactly one minute and that upsert's error, leaving the state produced
by the failing upsert (no later child kind is attempted); if all five return
no error the pass returns no-requeue, no-error. -/
theorem reconcile_order_first_failure_backoff (settingName : String) (req : ObjKey)
    (st : ClusterState) (page : HugoPage) (settings : Setting)
    (hp : pageGetNamespaced st req = (some page, none))
    (hs : settingsGetNameNamespace st settingName req.ns = (some settings, none)) :
    (∀ v1 e1 s1,
      upsertPageBuilderCronJob (some page) settings st = .ok v1 (some e1) s1 →
      reconcile settingName req st = ⟨.done requeueOneMinute (some e1), s1⟩) ∧
    (∀ v1 s1, upsertPageBuilderCronJob (some page) settings st = .ok v1 none s1 →
      (∀ v2 e2 s2, upsertConfigMap (some page) settings s1 = .ok v2 (some e2) s2 →
        reconcile settingName req st = ⟨.done requeueOneMinute (some e2), s2⟩) ∧
      (∀ v2 s2, upsertConfigMap (some page) settings s1 = .ok v2 none s2 →
        (∀ v3 e3 s3, upsertPageNginxProxy (some page) settings s2 = .ok v3 (some e3) s3 →
          reconcile settingName req st = ⟨.done requeueOneMinute (some e3), s3⟩) ∧
        (∀ v3 s3, upsertPageNginxProxy (some page) settings s2 = .ok v3 none s3 →
          (∀ v4 e4 s4, upsertNginxProxyService (some page) s3 = .ok v4 (some e4) s4 →
            reconcile settingName req st = ⟨.done requeueOneMinute (some e4), s4⟩) ∧
          (∀ v4 s4, upsertNginxProxyService (some page) s3 = .ok v4 none s4 →
            (∀ v5 e5 s5, upsertPageIngress (some page) settings s4 = .ok v5 (some e5) s5 →
              reconcile settingName req st = ⟨.done requeueOneMinute (some e5), s5⟩) ∧
            (∀ v5 s5, upsertPageIngress (some page) settings s4 = .ok v5 none s5 →
              reconcile settingName req st = ⟨.done noRequeue none, s5⟩))))) := by
  simp only [reconcile, hp, hs]
  refine ⟨?_, ?_⟩
  · intro v1 e1 s1 h1
    simp only [h1]
  · intro v1 s1 h1
    simp only [h1]
    refine ⟨?_, ?_⟩
    · intro v2 e2 s2 h2
      simp only [h2]
    · intro v2 s2 h2
      simp only [h2]
      refine ⟨?_, ?_⟩
      · intro v3 e3 s3 h3
        simp only [h3]
      · intro v3 s3 h3
        simp only [h3]
        refine ⟨?_, ?_⟩
        · intro v4 e4 s4 h4
          simp only [h4]
        · intro v4 s4 h4
          simp only [h4]
          refine ⟨?_, ?_⟩
          · intro v5 e5 s5 h5
            simp only [h5]
          · intro v5 s5 h5
            simp only [h5]

/-- Witness for C4: with a read fault injected on the CronJob key, the pass
stops at the first upsert and requeues after one minute with its error. -/
theorem reconcile_order_first_failure_backoff_witness :
    reconcile "settings" ⟨"blog", "default"⟩ exampleStateCronFault =
      ⟨.done requeueOneMinute
        (some (.wrapped "Failed to get page-builder CronJob"
          (.other "transient read failure"))),
       exampleStateCronFault⟩ :=
  (reconcile_order_first_failure_backoff "settings" ⟨"blog", "default"⟩
    exampleStateCronFault examplePage exampleSetting rfl rfl).1 none
    (.wrapped "Failed to get page-builder CronJob" (.other "transient read failure"))
    exampleStateCronFault rfl

/-- C5: a non-not-found failure of the initial read is supposed to surface
as a non-nil wrapped error for every child kind.  The CronJob upsert does so
(third conjunct), but the ConfigMap upsert wraps the nil template-parse
error instead of the read error, so it returns a nil resource and a nil
error on exactly that input (first conjunct; the second shows the read did
fail with a non-not-found error). -/
theorem configMap_read_failure_error_swallowed :
    upsertConfigMap (some examplePage) exampleSetting exampleStateCmFault =
      .ok none none exampleStateCmFault ∧
    (clientGet exampleStateCmFault .configMap ⟨"nginx-proxy-conf-blog", "default"⟩).2 =
      some (.other "transient read failure") ∧
    upsertPageBuilderCronJob (some examplePage) exampleSetting exampleStateCronFault =
      .ok none
        (some (.wrapped "Failed to get page-builder CronJob"
          (.other "transient read failure")))
        exampleStateCronFault :=
  ⟨rfl, rfl, rfl⟩

/-- C2 is false as stated: on the create path the upsert does not stop after
the create — it falls through to the unconditional update, so two writes are
issued in one invocation.  At a concrete state with the CronJob absent the
invocation logs a create and an update of the same object. -/
theorem create_path_issues_two_writes :
    (upsertOutState (upsertPageBuilderCronJob (some examplePage) exampleSetting
        exampleState)).writeLog =
      [.create .cronJob ⟨"blog", "default"⟩
        (.cronJob (desiredCronJob examplePage exampleSetting)),
       .update .cronJob ⟨"blog", "default"⟩
        (.cronJob (desiredCronJob examplePage exampleSetting))] ∧
    (upsertOutState (upsertPageBuilderCronJob (some examplePage) exampleSetting
        exampleState)).writeLog.length ≠ 1 :=
  ⟨rfl, by decide⟩

/-- C2 (amended): for every fault-free Upsert invocation of any of the five
child kinds, the writes issued are a create followed by an update when the
prior read returned not-found, and exactly one update otherwise
(`issuedWrites`). -/
theorem upsert_write_discipline :
    (∀ page settings st,
      (ResKind.cronJob, (⟨page.name, page.ns⟩ : ObjKey)) ∉ st.getFaults →
      (ResKind.cronJob, (⟨page.name, page.ns⟩ : ObjKey)) ∉ st.createFaults →
      (ResKind.cronJob, (⟨page.name, page.ns⟩ : ObjKey)) ∉ st.updateFaults →
      (upsertOutState (upsertPageBuilderCronJob (some page) settings st)).writeLog =
        st.writeLog ++ issuedWrites st .cronJob ⟨page.name, page.ns⟩
          (.cronJob (desiredCronJob page settings))) ∧
    (∀ page settings st,
      (ResKind.configMap, (⟨"nginx-proxy-conf-" ++ page.name, page.ns⟩ : ObjKey)) ∉ st.getFaults →
      (ResKind.configMap, (⟨"nginx-proxy-conf-" ++ page.name, page.ns⟩ : ObjKey)) ∉ st.createFaults →
      (ResKind.configMap, (⟨"nginx-proxy-conf-" ++ page.name, page.ns⟩ : ObjKey)) ∉ st.updateFaults →
      (upsertOutState (upsertConfigMap (some page) settings st)).writeLog =
        st.writeLog ++ issuedWrites st .configMap ⟨"nginx-proxy-conf-" ++ page.name, page.ns⟩
          (.configMap (desiredConfigMap page settings))) ∧
    (∀ page settings st,
      (ResKind.deployment, (⟨"nginx-proxy-" ++ page.name, page.ns⟩ : ObjKey)) ∉ st.getFaults →
      (ResKind.deployment, (⟨"nginx-proxy-" ++ page.name, page.ns⟩ : ObjKey)) ∉ st.createFaults →
      (ResKind.deployment, (⟨"nginx-proxy-" ++ page.name, page.ns⟩ : ObjKey)) ∉ st.updateFaults →
      (upsertOutState (upsertPageNginxProxy (some page) settings st)).writeLog =
        st.writeLog ++ issuedWrites st .deployment ⟨"nginx-proxy-" ++ page.name, page.ns⟩
          (.deployment (desiredDeployment page settings))) ∧
    (∀ page st,
      (ResKind.service, (⟨"nginx-proxy-" ++ page.name ++ "-svc", page.ns⟩ : ObjKey)) ∉ st.getFaults →
      (ResKind.service, (⟨"nginx-proxy-" ++ page.name ++ "-svc", page.ns⟩ : ObjKey)) ∉ st.createFaults →
      (ResKind.service, (⟨"nginx-proxy-" ++ page.name ++ "-svc", page.ns⟩ : ObjKey)) ∉ st.updateFaults →
      (upsertOutState (upsertNginxProxyService (some page) st)).writeLog =
        st.writeLog ++ issuedWrites st .service ⟨"nginx-proxy-" ++ page.name ++ "-svc", page.ns⟩
          (.service (desiredService page))) ∧
    (∀ page settings st,
      (ResKind.ingress, (⟨page.name, page.ns⟩ : ObjKey)) ∉ st.getFaults →
      (ResKind.ingress, (⟨page.name, page.ns⟩ : ObjKey)) ∉ st.createFaults →
      (ResKind.ingress, (⟨page.name, page.ns⟩ : ObjKey)) ∉ st.updateFaults →
      (upsertOutState (upsertPageIngress (some page) settings st)).writeLog =
        st.writeLog ++ issuedWrites st .ingress ⟨page.name, page.ns⟩
          (.ingress (desiredIngress page settings))) := by
  refine ⟨?_, ?_, ?_, ?_, ?_⟩
  · intro page settings st hg hc hu
    rw [upsertPageBuilderCronJob_noFault page settings st hg hc hu]
    rfl
  · intro page settings st hg hc hu
    rw [upsertConfigMap_noFault page settings st hg hc hu]
    rfl
  · intro page settings st hg hc hu
    rw [upsertPageNginxProxy_noFault page settings st hg hc hu]
    rfl
  · intro page st hg hc hu
    rw [upsertNginxProxyService_noFault page st hg hc hu]
    rfl
  · intro page settings st hg hc hu
    rw [upsertPageIngress_noFault page settings st hg hc hu]
    rfl

/-- Witness for C2 (amended), CronJob kind at a concrete fault-free state. -/
theorem upsert_write_discipline_witness :
    (upsertOutState (upsertPageBuilderCronJob (some examplePage) exampleSetting
        exampleState)).writeLog =
      exampleState.writeLog ++
        issuedWrites exampleState .cronJob ⟨"blog", "default"⟩
          (.cronJob (desiredCronJob examplePage exampleSetting)) :=
  upsert_write_discipline.1 examplePage exampleSetting exampleState
    (by decide) (by decide) (by decide)

/-- C6 is false as stated: the TLS secret name is derived from the Site's
name, not its URL.  At a Site named `blog` with URL `docs.example.com` the
Route's TLS secret is `blog-page-secret`, not `docs-example-com-page-secret`. -/
theorem tls_secret_name_ignores_url :
    (upsertOutVal (upsertPageIngress (some examplePage) exampleSetting
        exampleState)).map (fun ing => ing.tls) =
      some (some ⟨["docs.example.com"], "blog-page-secret"⟩) ∧
    examplePage.spec.url = "docs.example.com" ∧
    "blog-page-secret" ≠ "docs-example-com-page-secret" :=
  ⟨by decide, rfl, by decide⟩

/-- C6 (amended): with the TLS flag enabled, the Route produced by a
fault-free Route upsert carries a TLS block whose secret name is the Site's
name with dots replaced by dashes followed by `-page-secret`, its TLS hosts
are the Site's URL, and (the Go map having distinct keys) every key/value
pair of the SiteConfig's TLS annotations appears in the Route's metadata
annotations. -/
theorem ingress_tls_block_and_annotations (page : HugoPage) (settings : Setting)
    (st : ClusterState)
    (hg : (ResKind.ingress, (⟨page.name, page.ns⟩ : ObjKey)) ∉ st.getFaults)
    (hc : (ResKind.ingress, (⟨page.name, page.ns⟩ : ObjKey)) ∉ st.createFaults)
    (hu : (ResKind.ingress, (⟨page.name, page.ns⟩ : ObjKey)) ∉ st.updateFaults)
    (htls : settings.spec.tls.enable = true) :
    ∃ st', upsertPageIngress (some page) settings st =
        .ok (some (desiredIngress page settings)) none st' ∧
      (desiredIngress page settings).tls =
        some ⟨[page.spec.url], replaceDots page.name ++ "-page-secret"⟩ ∧
      ((settings.spec.tls.annotations.map Prod.fst).Nodup →
        ∀ k v, (k, v) ∈ settings.spec.tls.annotations →
          mapLookup (desiredIngress page settings).annotations k = some v) := by
  refine ⟨_, upsertPageIngress_noFault page settings st hg hc hu, ?_, ?_⟩
  · simp [desiredIngress, htls]
  · intro hnd k v hmem
    simp only [desiredIngress, htls, if_true]
    exact copyAnnotations_lookup _ hnd k v hmem

/-- Witness for C6 (amended) at the example Site and TLS-enabled SiteConfig. -/
theorem ingress_tls_block_and_annotations_witness :
    ∃ st', upsertPageIngress (some examplePage) exampleSetting exampleState =
        .ok (some (desiredIngress examplePage exampleSetting)) none st' ∧
      (desiredIngress examplePage exampleSetting).tls =
        some ⟨["docs.example.com"], "blog-page-secret"⟩ ∧
      ((exampleSetting.spec.tls.annotations.map Prod.fst).Nodup →
        ∀ k v, (k, v) ∈ exampleSetting.spec.tls.annotations →
          mapLookup (desiredIngress examplePage exampleSetting).annotations k = some v) :=
  ingress_tls_block_and_annotations examplePage exampleSetting exampleState
    (by decide) (by decide) (by decide) rfl

/-- C7: the rendered proxy configuration depends only on the effective
storage endpoint (the proxy-URL override when non-empty, the S3 endpoint
otherwise), the bucket name and the site name; and the rendered document
contains the proxy target built from those three joined by slashes with a
trailing slash. -/
theorem nginx_conf_purity_and_proxy_target :
    (∀ p1 p2 s1 s2, effectiveProxyUrl s1 = effectiveProxyUrl s2 →
      s1.spec.s3Config.bucketName = s2.spec.s3Config.bucketName →
      p1.name = p2.name →
      (desiredConfigMap p1 s1).data = (desiredConfigMap p2 s2).data) ∧
    (∀ page settings, (desiredConfigMap page settings).data =
      [("nginx.conf", renderNginxConf (effectiveProxyUrl settings)
          settings.spec.s3Config.bucketName page.name)]) ∧
    (∀ e b n, ∃ pre post,
      renderNginxConf e b n =
        pre ++ ("proxy_pass " ++ e ++ "/" ++ b ++ "/" ++ n ++ "/;") ++ post) := by
  have hdata : ∀ page settings, (desiredConfigMap page settings).data =
      [("nginx.conf", renderNginxConf (effectiveProxyUrl settings)
          settings.spec.s3Config.bucketName page.name)] := fun page settings => rfl
  refine ⟨?_, hdata, fun e b n => ⟨nginxConfBefore, nginxConfAfter, rfl⟩⟩
  intro p1 p2 s1 s2 he hb hn
  rw [hdata, hdata, he, hb, hn]

/-- Witness for C7: two SiteConfigs with the same effective endpoint (one
via the override, one via the S3 endpoint) render identical data, and the
spec's example values place `https://s3.example.com/my-bucket/blog/` behind
`proxy_pass`. -/
theorem nginx_conf_purity_and_proxy_target_witness :
    (desiredConfigMap examplePage exampleSetting).data =
      (desiredConfigMap examplePage exampleSettingOverride).data ∧
    (∃ pre post, renderNginxConf "https://s3.example.com" "my-bucket" "blog" =
      pre ++ ("proxy_pass " ++ "https://s3.example.com" ++ "/" ++ "my-bucket" ++
        "/" ++ "blog" ++ "/;") ++ post) :=
  ⟨nginx_conf_purity_and_proxy_target.1 examplePage examplePage exampleSetting
      exampleSettingOverride rfl rfl rfl,
   nginx_conf_purity_and_proxy_target.2.2 "https://s3.example.com" "my-bucket" "blog"⟩

/-- C8: each of the five upserts is idempotent on fault-free state: the
first call returns the desired object and stores it; a second call over the
state left by the first returns the identical object, finds the desired
object already stored, and leaves the store unchanged. -/
theorem upserts_idempotent :
    (∀ page settings st,
      (ResKind.cronJob, (⟨page.name, page.ns⟩ : ObjKey)) ∉ st.getFaults →
      (ResKind.cronJob, (⟨page.name, page.ns⟩ : ObjKey)) ∉ st.createFaults →
      (ResKind.cronJob, (⟨page.name, page.ns⟩ : ObjKey)) ∉ st.updateFaults →
      ∃ st1 st2,
        upsertPageBuilderCronJob (some page) settings st =
          .ok (some (desiredCronJob page settings)) none st1 ∧
        upsertPageBuilderCronJob (some page) settings st1 =
          .ok (some (desiredCronJob page settings)) none st2 ∧
        storeGet st1.store .cronJob ⟨page.name, page.ns⟩ =
          some (.cronJob (desiredCronJob page settings)) ∧
        st2.store = st1.store) ∧
    (∀ page settings st,
      (ResKind.configMap, (⟨"nginx-proxy-conf-" ++ page.name, page.ns⟩ : ObjKey)) ∉ st.getFaults →
      (ResKind.configMap, (⟨"nginx-proxy-conf-" ++ page.name, page.ns⟩ : ObjKey)) ∉ st.createFaults →
      (ResKind.configMap, (⟨"nginx-proxy-conf-" ++ page.name, page.ns⟩ : ObjKey)) ∉ st.updateFaults →
      ∃ st1 st2,
        upsertConfigMap (some page) settings st =
          .ok (some (desiredConfigMap page settings)) none st1 ∧
        upsertConfigMap (some page) settings st1 =
          .ok (some (desiredConfigMap page settings)) none st2 ∧
        storeGet st1.store .configMap ⟨"nginx-proxy-conf-" ++ page.name, page.ns⟩ =
          some (.configMap (desiredConfigMap page settings)) ∧
        st2.store = st1.store) ∧
    (∀ page settings st,
      (ResKind.deployment, (⟨"nginx-proxy-" ++ page.name, page.ns⟩ : ObjKey)) ∉ st.getFaults →
      (ResKind.deployment, (⟨"nginx-proxy-" ++ page.name, page.ns⟩ : ObjKey)) ∉ st.createFaults →
      (ResKind.deployment, (⟨"nginx-proxy-" ++ page.name, page.ns⟩ : ObjKey)) ∉ st.updateFaults →
      ∃ st1 st2,
        upsertPageNginxProxy (some page) settings st =
          .ok (some (desiredDeployment page settings)) none st1 ∧
        upsertPageNginxProxy (some page) settings st1 =
          .ok (some (desiredDeployment page settings)) none st2 ∧
        storeGet st1.store .deployment ⟨"nginx-proxy-" ++ page.name, page.ns⟩ =
          some (.deployment (desiredDeployment page settings)) ∧
        st2.store = st1.store) ∧
    (∀ page st,
      (ResKind.service, (⟨"nginx-proxy-" ++ page.name ++ "-svc", page.ns⟩ : ObjKey)) ∉ st.getFaults →
      (ResKind.service, (⟨"nginx-proxy-" ++ page.name ++ "-svc", page.ns⟩ : ObjKey)) ∉ st.createFaults →
      (ResKind.service, (⟨"nginx-proxy-" ++ page.name ++ "-svc", page.ns⟩ : ObjKey)) ∉ st.updateFaults →
      ∃ st1 st2,
        upsertNginxProxyService (some page) st =
          .ok (some (desiredService page)) none st1 ∧
        upsertNginxProxyService (some page) st1 =
          .ok (some (desiredService page)) none st2 ∧
        storeGet st1.store .service ⟨"nginx-proxy-" ++ page.name ++ "-svc", page.ns⟩ =
          some (.service (desiredService page)) ∧
        st2.store = st1.store) ∧
    (∀ page settings st,
      (ResKind.ingress, (⟨page.name, page.ns⟩ : ObjKey)) ∉ st.getFaults →
      (ResKind.ingress, (⟨page.name, page.ns⟩ : ObjKey)) ∉ st.createFaults →
      (ResKind.ingress, (⟨page.name, page.ns⟩ : ObjKey)) ∉ st.updateFaults →
      ∃ st1 st2,
        upsertPageIngress (some page) settings st =
          .ok (some (desiredIngress page settings)) none st1 ∧
        upsertPageIngress (some page) settings st1 =
          .ok (some (desiredIngress page settings)) none st2 ∧
        storeGet st1.store .ingress ⟨page.name, page.ns⟩ =
          some (.ingress (desiredIngress page settings)) ∧
        st2.store = st1.store) := by
  refine ⟨?_, ?_, ?_, ?_, ?_⟩
  · intro page settings st hg hc hu
    exact ⟨_, _, upsertPageBuilderCronJob_noFault page settings st hg hc hu,
      upsertPageBuilderCronJob_noFault page settings _ hg hc hu,
      storeGet_storeSet_self _ _ _ _, storeSet_storeSet_self _ _ _ _⟩
  · intro page settings st hg hc hu
    exact ⟨_, _, upsertConfigMap_noFault page settings st hg hc hu,
      upsertConfigMap_noFault page settings _ hg hc hu,
      storeGet_storeSet_self _ _ _ _, storeSet_storeSet_self _ _ _ _⟩
  · intro page settings st hg hc hu
    exact ⟨_, _, upsertPageNginxProxy_noFault page settings st hg hc hu,
      upsertPageNginxProxy_noFault page settings _ hg hc hu,
      storeGet_storeSet_self _ _ _ _, storeSet_storeSet_self _ _ _ _⟩
  · intro page st hg hc hu
    exact ⟨_, _, upsertNginxProxyService_noFault page st hg hc hu,
      upsertNginxProxyService_noFault page _ hg hc hu,
      storeGet_storeSet_self _ _ _ _, storeSet_storeSet_self _ _ _ _⟩
  · intro page settings st hg hc hu
    exact ⟨_, _, upsertPageIngress_noFault page settings st hg hc hu,
      upsertPageIngress_noFault page settings _ hg hc hu,
      storeGet_storeSet_self _ _ _ _, storeSet_storeSet_self _ _ _ _⟩

/-- Witness for C8, CronJob kind at the concrete fault-free example state. -/
theorem upserts_idempotent_witness :
    ∃ st1 st2,
      upsertPageBuilderCronJob (some examplePage) exampleSetting exampleState =
        .ok (some (desiredCronJob examplePage exampleSetting)) none st1 ∧
      upsertPageBuilderCronJob (some examplePage) exampleSetting st1 =
        .ok (some (desiredCronJob examplePage exampleSetting)) none st2 ∧
      storeGet st1.store .cronJob ⟨"blog", "default"⟩ =
        some (.cronJob (desiredCronJob examplePage exampleSetting)) ∧
      st2.store = st1.store :=
  upserts_idempotent.1 examplePage exampleSetting exampleState
    (by decide) (by decide) (by decide)

/-- C9: every write issued by any of the five upserts for a Site carries an
owner reference to that Site (first five conjuncts), and cascade deletion of
an owner leaves no resource owned by it (last conjunct), so deleting the
Site removes all five children. -/
theorem children_carry_owner_reference :
    (∀ page settings st w,
      w ∈ (upsertOutState (upsertPageBuilderCronJob (some page) settings st)).writeLog →
      w ∈ st.writeLog ∨ writeOpOwner w = some ⟨page.name, page.ns⟩) ∧
    (∀ page settings st w,
      w ∈ (upsertOutState (upsertConfigMap (some page) settings st)).writeLog →
      w ∈ st.writeLog ∨ writeOpOwner w = some ⟨page.name, page.ns⟩) ∧
    (∀ page settings st w,
      w ∈ (upsertOutState (upsertPageNginxProxy (some page) settings st)).writeLog →
      w ∈ st.writeLog ∨ writeOpOwner w = some ⟨page.name, page.ns⟩) ∧
    (∀ page st w,
      w ∈ (upsertOutState (upsertNginxProxyService (some page) st)).writeLog →
      w ∈ st.writeLog ∨ writeOpOwner w = some ⟨page.name, page.ns⟩) ∧
    (∀ page settings st w,
      w ∈ (upsertOutState (upsertPageIngress (some page) settings st)).writeLog →
      w ∈ st.writeLog ∨ writeOpOwner w = some ⟨page.name, page.ns⟩) ∧
    (∀ owner store e, e ∈ cascadeDelete owner store → ownerOf e.2.2 ≠ some owner) :=
  ⟨upsertPageBuilderCronJob_log_owner, upsertConfigMap_log_owner,
   upsertPageNginxProxy_log_owner, upsertNginxProxyService_log_owner,
   upsertPageIngress_log_owner, cascadeDelete_removes_owned⟩

/-- Witness for C9: the create issued for the example Site's CronJob carries
the Site as owner. -/
theorem children_carry_owner_reference_witness :
    WriteOp.create .cronJob ⟨"blog", "default"⟩
        (.cronJob (desiredCronJob examplePage exampleSetting)) ∈
        exampleState.writeLog ∨
      writeOpOwner (.create .cronJob ⟨"blog", "default"⟩
        (.cronJob (desiredCronJob examplePage exampleSetting))) =
        some ⟨"blog", "default"⟩ :=
  children_carry_owner_reference.1 examplePage exampleSetting exampleState
    (.create .cronJob ⟨"blog", "default"⟩
      (.cronJob (desiredCronJob examplePage exampleSetting)))
    (by decide)

/-- C10: the Service's selector equals the Deployment's pod-template label
set, both being `makeLabels page "nginx-proxy"`; the selector matches its
own Site's pod labels, and never matches the pod labels of a Site with a
different name (the `page` label differs). -/
theorem service_selector_matches_own_pods_only :
    (∀ page settings,
      (desiredService page).selector = (desiredDeployment page settings).templateLabels) ∧
    (∀ page, (desiredService page).selector = makeLabels page "nginx-proxy") ∧
    (∀ page settings,
      selMatches (desiredService page).selector
        (desiredDeployment page settings).templateLabels) ∧
    (∀ p1 p2 settings, p1.name ≠ p2.name →
      ¬ selMatches (desiredService p1).selector
        (desiredDeployment p2 settings).templateLabels) := by
  refine ⟨fun page settings => rfl, fun page => rfl, ?_, ?_⟩
  · intro page settings k v h
    exact h
  · intro p1 p2 settings hne hm
    have h1 := hm "page" p1.name (mapLookup_makeLabels_page p1 "nginx-proxy")
    simp only [desiredDeployment] at h1
    rw [mapLookup_makeLabels_page p2 "nginx-proxy"] at h1
    exact hne (Option.some.inj h1).symm

/-- Witness for C10: the example Site's selector does not match the pod
labels produced for a Site with a different name. -/
theorem service_selector_matches_own_pods_only_witness :
    ¬ selMatches (desiredService examplePage).selector
      (desiredDeployment examplePage2 exampleSetting).templateLabels :=
  service_selector_matches_own_pods_only.2.2.2 examplePage examplePage2
    exampleSetting (by decide)

end HugoHoster
